import Mathlib

/-!
Shallow embedding of `src/neo4j_Main/crud_app.py`.

The script has three parts:
* `connect_with_retry(uri, auth, max_retries=120, delay_seconds=5)`: a loop
  `for attempt in range(max_retries)` that constructs a driver handle,
  verifies connectivity, and on `ServiceUnavailable` logs a retry message and
  sleeps unless the attempt count is exhausted (then re-raises); any other
  exception is re-raised immediately.  After the loop it returns `None`.
* `run_crud_example(driver)`: a fixed sequence of steps
  cleanup, create, read, update, expand, verify; the first five raise on
  failure (caught by a local handler that prints and calls `sys.exit(1)`),
  while verify merely prints a failure line when no record is found.
* the `__main__` block: connects, runs the CRUD sequence when a driver was
  returned, turns a connection failure into `sys.exit(1)`, and closes the
  driver in a `finally` block whenever one was obtained.

The embedding replaces the external database by oracles: an attempt outcome
function `Nat → AttemptResult` for the connection endpoint, and a
`SessionModel` record giving each CRUD step's outcome.  Every observable
action (handle construction, verification, log lines, sleeps, closes) is
recorded in a trace of `Event`s.
-/

/-- Outcome of one connection attempt: `driver.verify_connectivity()` either
succeeds, raises `ServiceUnavailable` (transient), or raises some other
exception (fatal, e.g. an authentication error). -/
inductive AttemptResult where
  | success
  | transient
  | fatal
deriving DecidableEq, Repr

/-- What `connect_with_retry` produces: a returned handle (identified by the
0-based attempt index on which it was constructed), a re-raised transient
failure, a re-raised non-transient failure, or the `return None` fall-through
after an empty loop. -/
inductive ConnectResult where
  | handle (id : Nat)
  | raiseTransient
  | raiseFatal
  | noneR
deriving DecidableEq, Repr

/-- The six steps of the CRUD sequence in `run_crud_example`. -/
inductive Step where
  | cleanup
  | create
  | read
  | update
  | expand
  | verify
deriving DecidableEq, Repr

/-- Observable actions of the script, in program order. -/
inductive Event where
  | construct (id : Nat)
  | verifyOk (id : Nat)
  | verifyFail (id : Nat)
  | retryLog (attempt maxRetries : Nat)
  | successLog
  | sleep (d : Nat)
  | stepRun (s : Step)
  | stepOkLog (s : Step)
  | verifyFailedLog
  | errorLog
  | close (id : Nat)
  | closedLog
deriving DecidableEq, Repr

/-- The body of `connect_with_retry`'s `for attempt in range(max_retries)`
loop.  `remaining` is the number of loop iterations left (fuel), `attempt`
the current 0-based loop index, `maxRetries` the Python `max_retries` value
(already clamped to a natural, as `range` ignores a negative bound).
The handle constructed on attempt `a` is given identity `a`.
In Python the retry log line prints `attempt + 1`; the event records the
0-based `attempt` index together with `maxRetries`. -/
def connectAux (endpoint : Nat → AttemptResult) (maxRetries delay attempt remaining : Nat) :
    ConnectResult × List Event :=
  match remaining with
  | 0 => (ConnectResult.noneR, [])
  | r + 1 =>
    match endpoint attempt with
    | AttemptResult.success =>
      (ConnectResult.handle attempt,
       [Event.construct attempt, Event.verifyOk attempt, Event.successLog])
    | AttemptResult.transient =>
      if attempt < maxRetries - 1 then
        let rest := connectAux endpoint maxRetries delay (attempt + 1) r
        (rest.1,
         Event.construct attempt :: Event.verifyFail attempt ::
         Event.retryLog attempt maxRetries :: Event.sleep delay :: rest.2)
      else
        (ConnectResult.raiseTransient,
         [Event.construct attempt, Event.verifyFail attempt,
          Event.retryLog attempt maxRetries])
    | AttemptResult.fatal =>
      (ConnectResult.raiseFatal,
       [Event.construct attempt, Event.verifyFail attempt])

/-- `connect_with_retry(uri, auth, max_retries, delay_seconds)`.  The endpoint
oracle stands for the pair (uri, auth) together with the database's state on
each attempt; `max_retries` is an arbitrary integer as in Python, where
`range(n)` is empty for `n ≤ 0`. -/
def connect_with_retry (endpoint : Nat → AttemptResult) (max_retries : Int)
    (delay_seconds : Nat) : ConnectResult × List Event :=
  connectAux endpoint max_retries.toNat delay_seconds 0 max_retries.toNat

/-- Outcome of one CRUD step's interaction with the session:
the query succeeded and (where checked) returned a record; the query ran but
`result.single()` found no record; or the underlying call raised. -/
inductive StepResult where
  | ok
  | noRecord
  | exn
deriving DecidableEq, Repr, Fintype

/-- Oracle for the session's behavior on each step of `run_crud_example`.
`cleanup` and `expand` perform no record check, so only success (`true`) or a
raised exception (`false`) are possible for them. -/
structure SessionModel where
  cleanup : Bool
  create : StepResult
  read : StepResult
  update : StepResult
  expand : Bool
  verify : StepResult
deriving DecidableEq, Repr

/-- How `run_crud_example` ends: falls off the end normally, or calls
`sys.exit(1)` from its exception handler. -/
inductive RunOutcome where
  | completed
  | exited1
deriving DecidableEq, Repr

/-- `run_crud_example(driver)`: the steps run in the fixed order
cleanup, create, read, update, expand, verify; every raised exception
(including the `raise Exception(...)` on a missing record in create, read and
update) is caught by the single handler, which prints an error line and calls
`sys.exit(1)`.  The verify step prints `5. VERIFY FAILED: ...` when no record
is found but raises nothing and the function completes normally. -/
def run_crud_example (s : SessionModel) : List Event × RunOutcome :=
  let t0 := [Event.stepRun Step.cleanup]
  if s.cleanup = false then
    (t0 ++ [Event.errorLog], RunOutcome.exited1)
  else
    let t1 := t0 ++ [Event.stepOkLog Step.cleanup, Event.stepRun Step.create]
    match s.create with
    | StepResult.ok =>
      let t2 := t1 ++ [Event.stepOkLog Step.create, Event.stepRun Step.read]
      match s.read with
      | StepResult.ok =>
        let t3 := t2 ++ [Event.stepOkLog Step.read, Event.stepRun Step.update]
        match s.update with
        | StepResult.ok =>
          let t4 := t3 ++ [Event.stepOkLog Step.update, Event.stepRun Step.expand]
          if s.expand = false then
            (t4 ++ [Event.errorLog], RunOutcome.exited1)
          else
            let t5 := t4 ++ [Event.stepOkLog Step.expand, Event.stepRun Step.verify]
            match s.verify with
            | StepResult.ok =>
              (t5 ++ [Event.stepOkLog Step.verify], RunOutcome.completed)
            | StepResult.noRecord =>
              (t5 ++ [Event.verifyFailedLog], RunOutcome.completed)
            | StepResult.exn =>
              (t5 ++ [Event.errorLog], RunOutcome.exited1)
        | _ => (t3 ++ [Event.errorLog], RunOutcome.exited1)
      | _ => (t2 ++ [Event.errorLog], RunOutcome.exited1)
    | _ => (t1 ++ [Event.errorLog], RunOutcome.exited1)

/-- The `if __name__ == "__main__":` block.  `sys.exit(1)` raises
`SystemExit`, which `except Exception` does not catch, so a failed step inside
`run_crud_example` skips main's handler but still runs the `finally` block,
which closes the driver (only) when one was obtained.  The process exit code
is the second component. -/
def pyMain (endpoint : Nat → AttemptResult) (max_retries : Int)
    (delay_seconds : Nat) (s : SessionModel) : List Event × Nat :=
  let c := connect_with_retry endpoint max_retries delay_seconds
  match c.1 with
  | ConnectResult.handle id =>
    let r := run_crud_example s
    (c.2 ++ r.1 ++ [Event.close id, Event.closedLog],
     match r.2 with
     | RunOutcome.completed => 0
     | RunOutcome.exited1 => 1)
  | ConnectResult.raiseTransient => (c.2 ++ [Event.errorLog], 1)
  | ConnectResult.raiseFatal => (c.2 ++ [Event.errorLog], 1)
  | ConnectResult.noneR => (c.2, 0)

/-- Event classifiers and counters over a trace. -/
def isSleep : Event → Bool
  | Event.sleep _ => true
  | _ => false

def isRetryLog : Event → Bool
  | Event.retryLog _ _ => true
  | _ => false

def isConstruct : Event → Bool
  | Event.construct _ => true
  | _ => false

def isClose : Event → Bool
  | Event.close _ => true
  | _ => false

def isVerifyFail : Event → Bool
  | Event.verifyFail _ => true
  | _ => false

def countSleeps (evs : List Event) : Nat := evs.countP isSleep

def countRetryLogs (evs : List Event) : Nat := evs.countP isRetryLog

def countConstructs (evs : List Event) : Nat := evs.countP isConstruct

def totalSleep (evs : List Event) : Nat :=
  (evs.map (fun e => match e with | Event.sleep d => d | _ => 0)).sum

/-- The steps attempted, in order, as recorded in a trace. -/
def executedSteps (evs : List Event) : List Step :=
  evs.filterMap (fun e => match e with | Event.stepRun st => some st | _ => none)

/-- The fixed order of the CRUD steps in `run_crud_example`. -/
def stepOrder : List Step :=
  [Step.cleanup, Step.create, Step.read, Step.update, Step.expand, Step.verify]

/-- Whether a step raises an exception under session behavior `s`
(for create, read and update a missing record also raises; for verify only an
exception from the query itself does — a missing record is just printed). -/
def stepRaises (s : SessionModel) : Step → Bool
  | Step.cleanup => !s.cleanup
  | Step.create => !(s.create == StepResult.ok)
  | Step.read => !(s.read == StepResult.ok)
  | Step.update => !(s.update == StepResult.ok)
  | Step.expand => !s.expand
  | Step.verify => s.verify == StepResult.exn

/-- Whether some step of the CRUD sequence raises, i.e. `run_crud_example`
reaches its exception handler and calls `sys.exit(1)`. -/
def crudFatal (s : SessionModel) : Bool :=
  stepOrder.any (stepRaises s)

/-- Endpoint scenarios used by the concrete runs below. -/
def failsTwiceThenSucceeds : Nat → AttemptResult :=
  fun i => if i < 2 then AttemptResult.transient else AttemptResult.success

def alwaysUp : Nat → AttemptResult := fun _ => AttemptResult.success

def alwaysDown : Nat → AttemptResult := fun _ => AttemptResult.transient

def alwaysFatal : Nat → AttemptResult := fun _ => AttemptResult.fatal

/-- Endpoint that first becomes reachable on (1-based) attempt 2. -/
def reachableAt2 : Nat → AttemptResult :=
  fun i => if i + 1 < 2 then AttemptResult.transient else AttemptResult.success

/-- Session on which every CRUD step succeeds. -/
def sAllOk : SessionModel :=
  { cleanup := true, create := StepResult.ok, read := StepResult.ok,
    update := StepResult.ok, expand := true, verify := StepResult.ok }

/-- Session on which every step succeeds except that the verify query finds
no record. -/
def sVerifyMissing : SessionModel :=
  { cleanup := true, create := StepResult.ok, read := StepResult.ok,
    update := StepResult.ok, expand := true, verify := StepResult.noRecord }

/-! ## Helper lemmas about the retry loop -/

/-- When every attempt fails transiently, the loop raises after consuming all
its fuel, constructing one handle and logging one retry line per iteration
and sleeping on every iteration but the last. -/
theorem connectAux_exhaust (e : Nat → AttemptResult) (M d : Nat)
    (he : ∀ i, e i = AttemptResult.transient) :
    ∀ remaining attempt, attempt + remaining = M → 1 ≤ remaining →
    (connectAux e M d attempt remaining).1 = ConnectResult.raiseTransient ∧
    countConstructs (connectAux e M d attempt remaining).2 = remaining ∧
    countRetryLogs (connectAux e M d attempt remaining).2 = remaining ∧
    countSleeps (connectAux e M d attempt remaining).2 = remaining - 1 := by
  intro remaining
  induction remaining with
  | zero => intro attempt _ h1; omega
  | succ r ih =>
    intro attempt hsum _
    rw [connectAux, he attempt]
    rcases Nat.eq_zero_or_pos r with hr | hr
    · subst hr
      have hcond : ¬ attempt < M - 1 := by omega
      simp [hcond, countConstructs, countRetryLogs, countSleeps,
        List.countP_cons, isConstruct, isRetryLog, isSleep]
    · have hcond : attempt < M - 1 := by omega
      obtain ⟨h1, h2, h3, h4⟩ := ih (attempt + 1) (by omega) hr
      simp only [hcond, if_true, countConstructs, countRetryLogs, countSleeps,
        List.countP_cons, isConstruct, isRetryLog, isSleep] at h2 h3 h4 ⊢
      refine ⟨h1, ?_, ?_, ?_⟩
      · simp [h2]
      · simp [h3]
      · simp [h4]
        omega

/-- When attempts `attempt, …, attempt + j - 1` fail transiently and attempt
`attempt + j` succeeds (with enough fuel and attempts left), the loop returns
the handle of attempt `attempt + j` after `j` sleeps and `j` retry logs,
having constructed `j + 1` handles, the returned one verified. -/
theorem connectAux_success (e : Nat → AttemptResult) (M d : Nat) :
    ∀ j attempt remaining, j < remaining → attempt + remaining ≤ M →
    (∀ i, i < j → e (attempt + i) = AttemptResult.transient) →
    e (attempt + j) = AttemptResult.success →
    (connectAux e M d attempt remaining).1 = ConnectResult.handle (attempt + j) ∧
    countConstructs (connectAux e M d attempt remaining).2 = j + 1 ∧
    countSleeps (connectAux e M d attempt remaining).2 = j ∧
    countRetryLogs (connectAux e M d attempt remaining).2 = j ∧
    Event.verifyOk (attempt + j) ∈ (connectAux e M d attempt remaining).2 := by
  intro j
  induction j with
  | zero =>
    intro attempt remaining hj hm ht hs
    match remaining, hj with
    | r + 1, _ =>
      rw [connectAux]
      rw [Nat.add_zero] at hs
      rw [hs]
      simp [countConstructs, countSleeps, countRetryLogs,
        List.countP_cons, isConstruct, isSleep, isRetryLog]
  | succ n ih =>
    intro attempt remaining hj hm ht hs
    match remaining, hj with
    | r + 1, _ =>
      have he0 : e attempt = AttemptResult.transient := by
        have := ht 0 (by omega)
        simpa using this
      have hcond : attempt < M - 1 := by omega
      rw [connectAux, he0]
      have ht' : ∀ i, i < n → e (attempt + 1 + i) = AttemptResult.transient := by
        intro i hi
        have := ht (i + 1) (by omega)
        rwa [show attempt + (i + 1) = attempt + 1 + i by omega] at this
      have hs' : e (attempt + 1 + n) = AttemptResult.success := by
        rwa [show attempt + (n + 1) = attempt + 1 + n by omega] at hs
      obtain ⟨h1, h2, h3, h4, h5⟩ := ih (attempt + 1) r (by omega) (by omega) ht' hs'
      rw [show attempt + (n + 1) = attempt + 1 + n by omega]
      simp only [hcond, if_true, countConstructs, countSleeps, countRetryLogs,
        List.countP_cons, isConstruct, isSleep, isRetryLog, List.mem_cons] at h2 h3 h4 ⊢
      refine ⟨h1, by simp [h2], by simp [h3], by simp [h4], by simp [h5]⟩

/-- The retry loop never emits a close event: a handle whose verification
fails is abandoned, not closed. -/
theorem connectAux_no_close (e : Nat → AttemptResult) (M d : Nat) :
    ∀ remaining attempt, (connectAux e M d attempt remaining).2.any isClose = false := by
  intro remaining
  induction remaining with
  | zero => intro attempt; rfl
  | succ r ih =>
    intro attempt
    rw [connectAux]
    cases h : e attempt
    · simp [isClose]
    · by_cases hc : attempt < M - 1 <;> simp [hc, isClose, ih]
    · simp [isClose]

/-- A handle returned by the loop was constructed at or after the current
attempt index. -/
theorem connectAux_handle_ge (e : Nat → AttemptResult) (M d : Nat) :
    ∀ remaining attempt id,
    (connectAux e M d attempt remaining).1 = ConnectResult.handle id → attempt ≤ id := by
  intro remaining
  induction remaining with
  | zero => intro attempt id h; simp [connectAux] at h
  | succ r ih =>
    intro attempt id h
    rw [connectAux] at h
    cases he : e attempt <;> rw [he] at h
    · simp at h
      omega
    · by_cases hc : attempt < M - 1
      · rw [if_pos hc] at h
        have := ih (attempt + 1) id h
        omega
      · rw [if_neg hc] at h
        simp at h
    · simp at h

/-- Every failed verification in a run that eventually returns a handle
belongs to an earlier attempt than the returned handle. -/
theorem connectAux_verifyFail_lt (e : Nat → AttemptResult) (M d : Nat) :
    ∀ remaining attempt id j,
    (connectAux e M d attempt remaining).1 = ConnectResult.handle id →
    Event.verifyFail j ∈ (connectAux e M d attempt remaining).2 → j < id := by
  intro remaining
  induction remaining with
  | zero => intro attempt id j h _; simp [connectAux] at h
  | succ r ih =>
    intro attempt id j h hm
    rw [connectAux] at h hm
    cases he : e attempt <;> rw [he] at h hm
    · simp at hm
    · by_cases hc : attempt < M - 1
      · rw [if_pos hc] at h hm
        have hge := connectAux_handle_ge e M d r (attempt + 1) id h
        simp only [List.mem_cons] at hm
        rcases hm with h1 | h1 | h1 | h1 | h1
        · exact absurd h1 (by simp)
        · have : j = attempt := by
            cases h1
            rfl
          omega
        · exact absurd h1 (by simp)
        · exact absurd h1 (by simp)
        · exact ih (attempt + 1) id j h h1
      · rw [if_neg hc] at h
        simp at h
    · simp at h

/-! ## Helper lemmas about the CRUD sequence and the main block -/

/-- `run_crud_example` closes nothing: the `finally` in the main block is the
only place the driver is closed. -/
theorem run_crud_no_close (s : SessionModel) :
    (run_crud_example s).1.any isClose = false := by
  rcases s with ⟨c0, c1, c2, c3, c4, c5⟩
  revert c0 c1 c2 c3 c4 c5
  decide

/-- `run_crud_example` performs no connectivity verification. -/
theorem run_crud_no_verifyFail (s : SessionModel) :
    (run_crud_example s).1.any isVerifyFail = false := by
  rcases s with ⟨c0, c1, c2, c3, c4, c5⟩
  revert c0 c1 c2 c3 c4 c5
  decide

/-- `run_crud_example` calls `sys.exit(1)` exactly when some step raises. -/
theorem run_crud_exit_iff (s : SessionModel) :
    (run_crud_example s).2 = RunOutcome.exited1 ↔ crudFatal s = true := by
  rcases s with ⟨c0, c1, c2, c3, c4, c5⟩
  revert c0 c1 c2 c3 c4 c5
  decide

theorem connect_no_close (e : Nat → AttemptResult) (N : Int) (d : Nat) (j : Nat) :
    Event.close j ∉ (connect_with_retry e N d).2 := by
  intro hj
  have h2 : ((connect_with_retry e N d).2.any isClose) = true :=
    List.any_eq_true.mpr ⟨_, hj, rfl⟩
  rw [show (connect_with_retry e N d).2 = (connectAux e N.toNat d 0 N.toNat).2 from rfl,
      connectAux_no_close] at h2
  exact Bool.false_ne_true h2

theorem crud_no_close_mem (s : SessionModel) (j : Nat) :
    Event.close j ∉ (run_crud_example s).1 := by
  intro hj
  have h2 : ((run_crud_example s).1.any isClose) = true :=
    List.any_eq_true.mpr ⟨_, hj, rfl⟩
  rw [run_crud_no_close] at h2
  exact Bool.false_ne_true h2

theorem crud_no_verifyFail_mem (s : SessionModel) (j : Nat) :
    Event.verifyFail j ∉ (run_crud_example s).1 := by
  intro hj
  have h2 : ((run_crud_example s).1.any isVerifyFail) = true :=
    List.any_eq_true.mpr ⟨_, hj, rfl⟩
  rw [run_crud_no_verifyFail] at h2
  exact Bool.false_ne_true h2

/-! ## Claim theorems -/

/-- C1 (counterexample): a run in which every step succeeds except that the
VERIFY step finds no record terminates with exit code 0, not a non-zero code:
the verify branch only prints `5. VERIFY FAILED: ...` and the script then
completes normally. -/
theorem c1_verify_missing_exits_zero :
    sVerifyMissing.verify = StepResult.noRecord ∧
    Event.verifyFailedLog ∈ (pyMain alwaysUp 120 5 sVerifyMissing).1 ∧
    (pyMain alwaysUp 120 5 sVerifyMissing).2 = 0 := by decide

/-- C1 (amended): the exit code is 0 exactly when either no connection attempt
was made (non-positive attempt budget) or a handle was obtained and no step of
the sequence raised; it is 1 on a connection failure or on a raising step
(cleanup, create, read, update, expand, or an exception in verify) — but the
VERIFY step finding no record is only logged and still exits 0. -/
theorem c1_exit_code_characterization (e : Nat → AttemptResult) (N : Int) (d : Nat)
    (s : SessionModel) :
    (pyMain e N d s).2 = 0 ↔
      ((connect_with_retry e N d).1 = ConnectResult.noneR ∨
       (∃ id, (connect_with_retry e N d).1 = ConnectResult.handle id ∧
              crudFatal s = false)) := by
  simp only [pyMain]
  cases hres : (connect_with_retry e N d).1 with
  | handle h =>
    have hiff := run_crud_exit_iff s
    cases hr : (run_crud_example s).2 with
    | completed =>
      rw [hr] at hiff
      simp only [reduceCtorEq, false_iff, Bool.not_eq_true] at hiff
      simp [hiff]
    | exited1 =>
      rw [hr] at hiff
      simp only [true_iff] at hiff
      simp [hiff]
  | raiseTransient => simp
  | raiseFatal => simp
  | noneR => simp

/-- C2: for every attempt budget N ≥ 1 and an endpoint whose attempts
1, …, k−1 fail transiently while attempt k (k ≤ N) succeeds,
`connect_with_retry` returns the verified handle of attempt k (0-based index
k−1), sleeps exactly k−1 times, and constructs exactly k handles — so no
further attempt follows the successful one. -/
theorem c2_connect_success_at_attempt (e : Nat → AttemptResult) (N k d : Nat)
    (hk : 1 ≤ k) (hkN : k ≤ N)
    (ht : ∀ i, i + 1 < k → e i = AttemptResult.transient)
    (hs : e (k - 1) = AttemptResult.success) :
    (connect_with_retry e (N : Int) d).1 = ConnectResult.handle (k - 1) ∧
    countSleeps (connect_with_retry e (N : Int) d).2 = k - 1 ∧
    countConstructs (connect_with_retry e (N : Int) d).2 = k ∧
    Event.verifyOk (k - 1) ∈ (connect_with_retry e (N : Int) d).2 := by
  have hM : ((N : Int)).toNat = N := by omega
  rw [show connect_with_retry e (N : Int) d
        = connectAux e ((N : Int)).toNat d 0 ((N : Int)).toNat from rfl, hM]
  have h := connectAux_success e N d (k - 1) 0 N (by omega) (by omega)
    (fun i hi => by simpa using ht i (by omega)) (by simpa using hs)
  simp only [Nat.zero_add] at h
  refine ⟨h.1, h.2.2.1, ?_, h.2.2.2.2⟩
  have h2 := h.2.1
  omega

/-- C2 (witness): with N = 3 and an endpoint first reachable on attempt 2, the
handle of attempt 2 is returned after one sleep and two constructions. -/
theorem c2_witness :
    (connect_with_retry reachableAt2 ((3 : Nat) : Int) 5).1 = ConnectResult.handle 1 ∧
    countSleeps (connect_with_retry reachableAt2 ((3 : Nat) : Int) 5).2 = 1 ∧
    countConstructs (connect_with_retry reachableAt2 ((3 : Nat) : Int) 5).2 = 2 ∧
    Event.verifyOk 1 ∈ (connect_with_retry reachableAt2 ((3 : Nat) : Int) 5).2 :=
  c2_connect_success_at_attempt reachableAt2 3 2 5 (by decide) (by decide)
    (fun i hi => if_pos hi) (by decide)

/-- C3: for every attempt budget N ≥ 1 and an endpoint that fails transiently
on every attempt, `connect_with_retry` makes exactly N attempts, sleeps
exactly N−1 times (never after the final failed attempt), and re-raises the
transient failure. -/
theorem c3_connect_transient_exhaust (e : Nat → AttemptResult)
    (he : ∀ i, e i = AttemptResult.transient) (N : Nat) (hN : 1 ≤ N) (d : Nat) :
    (connect_with_retry e (N : Int) d).1 = ConnectResult.raiseTransient ∧
    countConstructs (connect_with_retry e (N : Int) d).2 = N ∧
    countSleeps (connect_with_retry e (N : Int) d).2 = N - 1 := by
  have hM : ((N : Int)).toNat = N := by omega
  rw [show connect_with_retry e (N : Int) d
        = connectAux e ((N : Int)).toNat d 0 ((N : Int)).toNat from rfl, hM]
  obtain ⟨h1, h2, _, h4⟩ := connectAux_exhaust e N d he N 0 (by omega) hN
  exact ⟨h1, h2, h4⟩

/-- C3 (witness): N = 3 against an always-unavailable endpoint: the transient
failure is re-raised after 3 attempts and 2 sleeps. -/
theorem c3_witness :
    (connect_with_retry alwaysDown ((3 : Nat) : Int) 5).1 = ConnectResult.raiseTransient ∧
    countConstructs (connect_with_retry alwaysDown ((3 : Nat) : Int) 5).2 = 3 ∧
    countSleeps (connect_with_retry alwaysDown ((3 : Nat) : Int) 5).2 = 2 :=
  c3_connect_transient_exhaust alwaysDown (fun _ => rfl) 3 (by decide) 5

/-- C4: for every attempt budget N ≥ 1, if the first attempt fails with a
non-transient failure, `connect_with_retry` propagates it after exactly one
attempt with no sleep: the `except Exception` arm re-raises immediately. -/
theorem c4_connect_fatal_no_retry (e : Nat → AttemptResult)
    (he : e 0 = AttemptResult.fatal) (N : Int) (hN : 1 ≤ N) (d : Nat) :
    (connect_with_retry e N d).1 = ConnectResult.raiseFatal ∧
    countConstructs (connect_with_retry e N d).2 = 1 ∧
    countSleeps (connect_with_retry e N d).2 = 0 := by
  rw [show connect_with_retry e N d = connectAux e N.toNat d 0 N.toNat from rfl]
  have hM : N.toNat = (N.toNat - 1) + 1 := by omega
  rw [hM, connectAux, he]
  simp [countConstructs, countSleeps, List.countP_cons, isConstruct, isSleep]

/-- C4 (witness): an endpoint that rejects the first attempt fatally, attempt
budget 3: the failure propagates after one attempt and zero sleeps. -/
theorem c4_witness :
    (connect_with_retry alwaysFatal 3 5).1 = ConnectResult.raiseFatal ∧
    countConstructs (connect_with_retry alwaysFatal 3 5).2 = 1 ∧
    countSleeps (connect_with_retry alwaysFatal 3 5).2 = 0 :=
  c4_connect_fatal_no_retry alwaysFatal rfl 3 (by decide) 5

/-- C5: on every run of the main block in which `connect_with_retry` returned
a handle — whatever the endpoint, attempt budget, delay and session behavior,
so in particular on full success, on a failed step, and on any raising step
after connection — the `finally` block closes that handle before the process
terminates. -/
theorem c5_driver_closed_on_every_exit (e : Nat → AttemptResult) (N : Int) (d : Nat)
    (s : SessionModel) (id : Nat)
    (h : (connect_with_retry e N d).1 = ConnectResult.handle id) :
    Event.close id ∈ (pyMain e N d s).1 := by
  simp only [pyMain, h]
  simp

/-- C5 (witness): a one-attempt success followed by an all-ok CRUD run closes
handle 0. -/
theorem c5_witness :
    Event.close 0 ∈ (pyMain alwaysUp 1 5 sAllOk).1 :=
  c5_driver_closed_on_every_exit alwaysUp 1 5 sAllOk 0 (by decide)

/-- C6: the CRUD sequence attempts its steps in the fixed order cleanup,
create, read, update, expand, verify; the steps attempted are exactly the
prefix of that order up to and including the first raising step (the whole
order when none raises), so a step runs only after all earlier steps
succeeded and nothing runs after the first fatal error. -/
theorem c6_crud_steps_in_order (s : SessionModel) :
    executedSteps (run_crud_example s).1 =
      stepOrder.take (stepOrder.findIdx (stepRaises s) + 1) := by
  rcases s with ⟨c0, c1, c2, c3, c4, c5⟩
  revert c0 c1 c2 c3 c4 c5
  decide

/-- C7: with attempt budget 3 and delay 5 against an endpoint failing
transiently on attempts 1 and 2 and succeeding on attempt 3, exactly 2 retry
messages are logged, the handle of the 3rd attempt (0-based index 2) is
returned, and at least 10 time-units are slept in total. -/
theorem c7_retry_scenario_three_attempts :
    (connect_with_retry failsTwiceThenSucceeds 3 5).1 = ConnectResult.handle 2 ∧
    countRetryLogs (connect_with_retry failsTwiceThenSucceeds 3 5).2 = 2 ∧
    10 ≤ totalSleep (connect_with_retry failsTwiceThenSucceeds 3 5).2 := by decide

/-- C8: called with a non-positive attempt budget, `connect_with_retry` makes
no attempt (the `for` loop body never runs) and falls through to
`return None`; the main block then skips `run_crud_example` (`if driver:` is
false), closes nothing, and exits with code 0 and an empty trace. -/
theorem c8_nonpositive_retries_returns_none (e : Nat → AttemptResult) (N : Int)
    (hN : N ≤ 0) (d : Nat) (s : SessionModel) :
    connect_with_retry e N d = (ConnectResult.noneR, []) ∧
    pyMain e N d s = ([], 0) := by
  have h0 : N.toNat = 0 := by omega
  have hc : connect_with_retry e N d = (ConnectResult.noneR, []) := by
    rw [show connect_with_retry e N d = connectAux e N.toNat d 0 N.toNat from rfl, h0]
    rfl
  refine ⟨hc, ?_⟩
  simp only [pyMain, hc]

/-- C8 (witness): attempt budget 0 yields `None` and a silent exit 0. -/
theorem c8_witness :
    connect_with_retry alwaysUp 0 5 = (ConnectResult.noneR, []) ∧
    pyMain alwaysUp 0 5 sAllOk = ([], 0) :=
  c8_nonpositive_retries_returns_none alwaysUp 0 (by decide) 5 sAllOk

/-- C9: for every attempt budget N ≥ 1 and an endpoint failing transiently on
every attempt, exactly N retry messages are logged — the print precedes the
exhaustion check, so the final attempt also announces a retry that never
happens — while only N−1 sleeps occur. -/
theorem c9_connect_retry_logged_each_attempt (e : Nat → AttemptResult)
    (he : ∀ i, e i = AttemptResult.transient) (N : Nat) (hN : 1 ≤ N) (d : Nat) :
    countRetryLogs (connect_with_retry e (N : Int) d).2 = N ∧
    countSleeps (connect_with_retry e (N : Int) d).2 = N - 1 := by
  have hM : ((N : Int)).toNat = N := by omega
  rw [show connect_with_retry e (N : Int) d
        = connectAux e ((N : Int)).toNat d 0 ((N : Int)).toNat from rfl, hM]
  obtain ⟨_, _, h3, h4⟩ := connectAux_exhaust e N d he N 0 (by omega) hN
  exact ⟨h3, h4⟩

/-- C9 (witness): N = 3 against an always-unavailable endpoint logs 3 retry
messages but sleeps only twice. -/
theorem c9_witness :
    countRetryLogs (connect_with_retry alwaysDown ((3 : Nat) : Int) 5).2 = 3 ∧
    countSleeps (connect_with_retry alwaysDown ((3 : Nat) : Int) 5).2 = 2 :=
  c9_connect_retry_logged_each_attempt alwaysDown (fun _ => rfl) 3 (by decide) 5

/-- C10: in every run of the main block, a close event names only the handle
`connect_with_retry` returned, and a handle whose connectivity verification
failed is never closed: the retry loop abandons it and only main's `finally`
closes the returned driver. -/
theorem c10_closed_handle_is_returned (e : Nat → AttemptResult) (N : Int) (d : Nat)
    (s : SessionModel) (id : Nat) :
    (Event.close id ∈ (pyMain e N d s).1 →
      (connect_with_retry e N d).1 = ConnectResult.handle id) ∧
    (Event.verifyFail id ∈ (pyMain e N d s).1 →
      Event.close id ∉ (pyMain e N d s).1) := by
  simp only [pyMain]
  cases hres : (connect_with_retry e N d).1 with
  | handle h =>
    simp only [List.mem_append, List.mem_cons, List.not_mem_nil]
    constructor
    · rintro ((hc | hc) | hc)
      · exact absurd hc (connect_no_close e N d id)
      · exact absurd hc (crud_no_close_mem s id)
      · rcases hc with hc | hc | hc
        · cases hc; rfl
        · cases hc
        · cases hc
    · rintro ((hv | hv) | hv)
      · have hlt : id < h := by
          have := connectAux_verifyFail_lt e N.toNat d N.toNat 0 h id
          exact this hres hv
        rintro ((hc | hc) | hc)
        · exact absurd hc (connect_no_close e N d id)
        · exact absurd hc (crud_no_close_mem s id)
        · rcases hc with hc | hc | hc
          · cases hc; omega
          · cases hc
          · cases hc
      · exact absurd hv (crud_no_verifyFail_mem s id)
      · rcases hv with hv | hv | hv <;> cases hv
  | raiseTransient =>
    simp only [List.mem_append, List.mem_cons, List.not_mem_nil]
    constructor
    · rintro (hc | hc | hc)
      · exact absurd hc (connect_no_close e N d id)
      · cases hc
      · cases hc
    · rintro _ (hc | hc | hc)
      · exact absurd hc (connect_no_close e N d id)
      · cases hc
      · cases hc
  | raiseFatal =>
    simp only [List.mem_append, List.mem_cons, List.not_mem_nil]
    constructor
    · rintro (hc | hc | hc)
      · exact absurd hc (connect_no_close e N d id)
      · cases hc
      · cases hc
    · rintro _ (hc | hc | hc)
      · exact absurd hc (connect_no_close e N d id)
      · cases hc
      · cases hc
  | noneR =>
    constructor
    · intro hc
      exact absurd hc (connect_no_close e N d id)
    · intro _ hc
      exact absurd hc (connect_no_close e N d id)

/-- C10 (witness): in the fails-twice-then-succeeds run, attempt 1's handle
failed verification and is never closed. -/
theorem c10_witness :
    Event.close 0 ∉ (pyMain failsTwiceThenSucceeds 3 5 sAllOk).1 :=
  (c10_closed_handle_is_returned failsTwiceThenSucceeds 3 5 sAllOk 0).2 (by decide)
